import Mathlib

/-!
Verification of the voice-driven merchant negotiation subsystem of a
pygame shop game.  The definitions below are a shallow embedding of the
Python sources:

* `src/scenes/shop_scene.py`   — purchase resolver (`_attempt_purchase`,
  `attempt_voice_purchase`, `_resolve_item_name`);
* `src/entities/player.py`     — `Player.spend_gold`;
* `src/inventory/manager.py`   — `InventoryManager` (add / equip);
* `src/inventory/items.py`     — item catalogs and prices;
* `src/merchant_dialogue.py`   — `VoiceChannel` controller, the
  transaction-bridge queue and its per-frame drain;
* `src/voice/assistant.py`     — the conversation orchestrator graph;
* CPython `difflib.get_close_matches` / `SequenceMatcher`, which
  `_resolve_item_name` calls for fuzzy name matching.

Python `int` is modelled by `Nat` where the source can never go negative
(gold is only debited guarded by a balance test; stock is clamped with
`max(0, ...)`), strings by `String`, dictionaries by total functions
with pointwise update (matching `.get(key, default)` semantics), and
exceptions by `Except String`.
-/

/-- `PurchaseOutcome` from `src/voice/assistant.py` (a frozen dataclass):
`{success, item_name, message, price_paid}`. -/
structure PurchaseOutcome where
  success : Bool
  item_name : Option String
  message : String
  price_paid : Option Nat
deriving Repr, DecidableEq

/-- One entry of `ShopScene._build_items` in `src/scenes/shop_scene.py`:
a dict with keys `name`, `type`, `price`, `sprite`, `stock_key`, `bonus`. -/
structure CatalogItem where
  name : String
  type : String
  price : Nat
  sprite : String
  stock_key : Option String
  bonus : String
deriving Repr, DecidableEq

/-- The known weapon names, the key set of `WEAPONS` in
`src/inventory/items.py`. -/
def weaponNames : List String := ["Short Sword", "Steel Sword"]

/-- The known shield names, the key set of `SHIELDS` in
`src/inventory/items.py`. -/
def shieldNames : List String := ["Wooden Shield", "Iron Shield"]

/-- The known potion names, the key set of `POTIONS` in
`src/inventory/items.py`. -/
def potionNames : List String := ["Heal Potion", "Mana Potion"]

/-- The mutable game state touched by the purchase resolver: the
player's gold and `InventoryManager` counters (`src/entities/player.py`,
`src/inventory/manager.py`) and the app's `merchant_stock` dict
(`main.py`).  Python dicts are modelled as total functions; reading
`merchant_stock.get(k, 0)` is `stock k`. -/
structure GameState where
  gold : Nat
  weapons : String → Nat
  shields : String → Nat
  potions : String → Nat
  equipped_weapon : Option String
  equipped_shield : Option String
  stock : String → Nat

/-- Pointwise update of a dict modelled as a total function. -/
def fupd (f : String → Nat) (k : String) (v : Nat) : String → Nat :=
  fun x => if x = k then v else f x

/-- Python truthiness of the optional `stock_key` string (`if stock_key:`
in `_attempt_purchase`): `None` and the empty string are falsy. -/
def truthy : Option String → Bool
  | none => false
  | some s => !s.isEmpty

/-- `Player.spend_gold` (`src/entities/player.py` lines 108-112): debit
`amount` and return `True` iff the balance suffices, else leave the gold
untouched and return `False`.  Returned as (flag, new balance). -/
def spend_gold (gold amount : Nat) : Bool × Nat :=
  if amount ≤ gold then (true, gold - amount) else (false, gold)

/-- The shop catalog built by `ShopScene._build_items`, with the prices
resolved from `src/inventory/items.py` (`WEAPONS`/`SHIELDS`/`POTIONS`). -/
def shopItems : List CatalogItem :=
  [ ⟨"Short Sword", "weapon", 50, "short_sword", none, "+6 ATK"⟩,
    ⟨"Steel Sword", "weapon", 120, "steel_sword", none, "+12 ATK"⟩,
    ⟨"Wooden Shield", "shield", 40, "wooden_shield", none, "+2 DEF"⟩,
    ⟨"Iron Shield", "shield", 110, "iron_shield", none, "+5 DEF"⟩,
    ⟨"Heal Potion", "potion", 20, "heal_potion", some "Heal Potion", "Restores 40 HP"⟩,
    ⟨"Mana Potion", "potion", 20, "mana_potion", none, "Restores 40 MP"⟩ ]

/-- `ShopScene._attempt_purchase` (`src/scenes/shop_scene.py` lines
158-193).  In order: the out-of-stock guard (`remaining <= 0` with
`remaining = merchant_stock.get(stock_key, 0)` when `stock_key` is
truthy), the `spend_gold` guard, the type-directed inventory add with
first-of-category auto-equip (`InventoryManager.add_weapon` /
`add_shield` / `add_potion` / `equip_weapon` / `equip_shield`, which
raise on unknown names — modelled as `Except.error`, returned together
with the state already mutated by the gold debit), the stock-ledger
decrement `max(0, remaining - 1)`, and the success outcome.  Sound
effects and the UI `feedback` string are not part of the verified
state. -/
def attempt_purchase (st : GameState) (item : CatalogItem) :
    Except String PurchaseOutcome × GameState :=
  if truthy item.stock_key ∧ st.stock (item.stock_key.getD "") = 0 then
    (Except.ok ⟨false, some item.name, item.name ++ " is out of stock!", none⟩, st)
  else if (spend_gold st.gold item.price).1 = false then
    (Except.ok ⟨false, some item.name,
       "Not enough gold for " ++ toString item.price ++ "g.", none⟩, st)
  else
    let st1 : GameState := { st with gold := (spend_gold st.gold item.price).2 }
    let addRes : Except String GameState :=
      if item.type = "weapon" then
        if weaponNames.contains item.name then
          let st2 := { st1 with weapons := fupd st1.weapons item.name (st1.weapons item.name + 1) }
          if st2.equipped_weapon = none then
            if 0 < st2.weapons item.name then
              Except.ok { st2 with equipped_weapon := some item.name }
            else Except.error ("Weapon " ++ item.name ++ " not owned")
          else Except.ok st2
        else Except.error ("Unknown weapon: " ++ item.name)
      else if item.type = "shield" then
        if shieldNames.contains item.name then
          let st2 := { st1 with shields := fupd st1.shields item.name (st1.shields item.name + 1) }
          if st2.equipped_shield = none then
            if 0 < st2.shields item.name then
              Except.ok { st2 with equipped_shield := some item.name }
            else Except.error ("Shield " ++ item.name ++ " not owned")
          else Except.ok st2
        else Except.error ("Unknown shield: " ++ item.name)
      else
        if potionNames.contains item.name then
          Except.ok { st1 with potions := fupd st1.potions item.name (st1.potions item.name + 1) }
        else Except.error ("Unknown potion: " ++ item.name)
    match addRes with
    | Except.error e => (Except.error e, st1)
    | Except.ok st4 =>
      let newStock : String → Nat :=
        fupd st4.stock (item.stock_key.getD "") (max 0 (st.stock (item.stock_key.getD "") - 1))
      let st5 : GameState :=
        if truthy item.stock_key then { st4 with stock := newStock } else st4
      (Except.ok ⟨true, some item.name,
         "Bought " ++ item.name ++ " for " ++ toString item.price ++ "g.",
         some item.price⟩, st5)

/-- The player's holdings of a catalog item, read through the same
type dispatch that `_attempt_purchase` uses to add it. -/
def holdings (st : GameState) (item : CatalogItem) : Nat :=
  if item.type = "weapon" then st.weapons item.name
  else if item.type = "shield" then st.shields item.name
  else st.potions item.name

/-!
Embedding of the CPython `difflib` machinery used by
`ShopScene._resolve_item_name`: `get_close_matches(lowered, keys, n=1,
cutoff=0.6)` filters the candidate names by
`SequenceMatcher(None, x, word).ratio() >= 0.6` (its `real_quick_ratio`
and `quick_ratio` pre-filters are upper bounds of `ratio`, so the
conjunction is equivalent to the last test) and returns the best scorer
of `heapq.nlargest(1, [(ratio, x), ...])`, i.e. the maximum under the
lexicographic tuple order (ratio first, then the string itself).

`ratio()` is `2*M/T` where `M` is the total size of the matching blocks
and `T = len(a) + len(b)`.  All ratio comparisons are done exactly on
the rationals (`2*m1/t1 ≥ 2*m2/t2  ↔  m1*t2 ≥ m2*t1`, and
`2*m/t ≥ 0.6  ↔  10*m ≥ 3*t`): for the short strings involved the
spacing of the rationals `2m/t` (at least `1/t²`) is astronomically
larger than one ulp of a double near `0.6`, so the exact comparison and
CPython's float comparison agree.  No junk heuristic applies: the
queries are far shorter than the `autojunk` threshold of 200 characters
and no `isjunk` predicate is passed.
-/

/-- `b2j` of `SequenceMatcher.__chain_b`: the ascending list of indices
at which character `c` occurs in `b`. -/
def b2j (b : List Char) (c : Char) : List Nat :=
  (List.range b.length).filter (fun j => b.getD j ' ' = c ∧ j < b.length)

/-- Running best block of `find_longest_match`: `(besti, bestj, bestsize)`. -/
structure FlmBest where
  besti : Nat
  bestj : Nat
  bestsize : Nat
deriving Repr, DecidableEq

/-- Inner loop of `find_longest_match` over the occurrence list of
`a[i]` in `b` (already restricted to `blo ≤ j < bhi`): builds the new
chain-length table `newj2len` from the previous row `j2len`
(`k = j2len.get(j-1, 0) + 1`) and updates the best block when a strictly
longer chain appears (`besti, bestj = i-k+1, j-k+1`). -/
def flmRow (i : Nat) : List Nat → List (Nat × Nat) → List (Nat × Nat) → FlmBest →
    List (Nat × Nat) × FlmBest
  | [], _, newRow, best => (newRow, best)
  | j :: js, oldRow, newRow, best =>
    let k := (if j = 0 then 0 else (oldRow.lookup (j - 1)).getD 0) + 1
    let best' := if best.bestsize < k then ⟨i + 1 - k, j + 1 - k, k⟩ else best
    flmRow i js oldRow ((j, k) :: newRow) best'

/-- Outer loop of `find_longest_match` over rows `i = alo, ..., ahi-1`
(`cnt = ahi - i` rows left). -/
def flmLoop (a b : List Char) (blo bhi : Nat) : Nat → Nat → List (Nat × Nat) → FlmBest → FlmBest
  | _, 0, _, best => best
  | i, cnt + 1, j2len, best =>
    let js := (b2j b (a.getD i ' ')).filter (fun j => blo ≤ j ∧ j < bhi)
    let (newRow, best') := flmRow i js j2len [] best
    flmLoop a b blo bhi (i + 1) cnt newRow best'

/-- The first post-loop extension of `find_longest_match`: grow the best
block leftwards while `besti > alo`, `bestj > blo` and the preceding
characters agree (the junk-guard is vacuous — no junk). -/
def extendLeft (a b : List Char) (alo blo : Nat) : Nat → Nat → Nat → Nat × Nat × Nat
  | bi + 1, bj + 1, bestsize =>
    if alo ≤ bi ∧ blo ≤ bj ∧ a.getD bi ' ' = b.getD bj ' ' then
      extendLeft a b alo blo bi bj (bestsize + 1)
    else (bi + 1, bj + 1, bestsize)
  | besti, bestj, bestsize => (besti, bestj, bestsize)

/-- The second post-loop extension of `find_longest_match`: grow the
best block rightwards while the following characters agree.  The fuel
argument bounds the iteration count; `extendRight` is called with fuel
`ahi`, which can never be exhausted since each step needs
`besti + bestsize < ahi`. -/
def extendRight (a b : List Char) (ahi bhi besti bestj : Nat) : Nat → Nat → Nat
  | 0, bestsize => bestsize
  | fuel + 1, bestsize =>
    if besti + bestsize < ahi ∧ bestj + bestsize < bhi ∧
        a.getD (besti + bestsize) ' ' = b.getD (bestj + bestsize) ' ' then
      extendRight a b ahi bhi besti bestj fuel (bestsize + 1)
    else bestsize

/-- `SequenceMatcher.find_longest_match(alo, ahi, blo, bhi)` with no
junk: the dynamic-programming scan followed by the two (non-junk)
extension loops; the junk-conditioned loops are identically no-ops. -/
def find_longest_match (a b : List Char) (alo ahi blo bhi : Nat) : Nat × Nat × Nat :=
  let best := flmLoop a b blo bhi alo (ahi - alo) [] ⟨alo, blo, 0⟩
  let ext := extendLeft a b alo blo best.besti best.bestj best.bestsize
  (ext.1, ext.2.1, extendRight a b ahi bhi ext.1 ext.2.1 ahi ext.2.2)

/-- Total size of the matching blocks of `get_matching_blocks` on the
range `[alo, ahi) × [blo, bhi)`: the recursive divide at the longest
match (CPython uses an explicit queue; the multiset of blocks, hence the
sum, is the same).  The fuel bounds the recursion depth; the top-level
call passes `a.length + b.length`, which exceeds any possible depth
because each level strictly shrinks `(ahi - alo) + (bhi - blo)`. -/
def matchesIn (a b : List Char) : Nat → Nat → Nat → Nat → Nat → Nat
  | _, _, _, _, 0 => 0
  | alo, ahi, blo, bhi, fuel + 1 =>
    let (i, j, k) := find_longest_match a b alo ahi blo bhi
    if k = 0 then 0
    else k + matchesIn a b alo i blo j fuel + matchesIn a b (i + k) ahi (j + k) bhi fuel

/-- `M` in `SequenceMatcher(None, a, b).ratio() = 2*M/T`: the total
matched size over the full ranges. -/
def totalMatches (a b : List Char) : Nat :=
  matchesIn a b 0 a.length 0 b.length (a.length + b.length)

/-- `SequenceMatcher(None, x, word).ratio() >= 0.6`, decided exactly on
the rationals: `2*m/t ≥ 3/5 ↔ 10*m ≥ 3*t` (see the module comment for
why this matches CPython's float comparison here). -/
def clearsCutoff (word x : String) : Bool :=
  3 * (x.length + word.length) ≤ 10 * totalMatches x.data word.data

/-- Python string `<`: lexicographic comparison of code points. -/
def pyStrLtChars : List Char → List Char → Bool
  | [], [] => false
  | [], _ :: _ => true
  | _ :: _, [] => false
  | a :: as, b :: bs =>
    if a.toNat < b.toNat then true
    else if b.toNat < a.toNat then false
    else pyStrLtChars as bs

/-- Strict comparison of two candidates under `heapq.nlargest`'s key,
the tuple `(ratio, x)`: `ratio` compared exactly (cross-multiplied),
ties broken by Python string comparison (lexicographic on code
points).  `ratioKeyGT word x y` is `(ratio_x, x) > (ratio_y, y)`. -/
def ratioKeyGT (word x y : String) : Bool :=
  let mx := totalMatches x.data word.data
  let my := totalMatches y.data word.data
  let cx := mx * (y.length + word.length)
  let cy := my * (x.length + word.length)
  if cx = cy then pyStrLtChars y.data x.data else decide (cy < cx)

/-- `heapq.nlargest(1, result)` head: the maximum candidate under the
`(ratio, x)` key (first occurrence kept on full-key ties, as in the
stable descending sort `nlargest` is specified as). -/
def pickBest (word : String) : List String → Option String
  | [] => none
  | c :: cs => some (cs.foldl (fun acc d => if ratioKeyGT word d acc then d else acc) c)

/-- `difflib.get_close_matches(word, possibilities, n=1, cutoff=0.6)`,
specialised to `n = 1`: keep the possibilities whose ratio clears the
cutoff, in order, and return the best scorer if any. -/
def get_close_matches1 (word : String) (possibilities : List String) : Option String :=
  pickBest word (possibilities.filterMap (fun x => if clearsCutoff word x then some x else none))

/-- Python `str.lower()` for the ASCII strings used here, character by
character (kernel-reducible, unlike `String.toLower`). -/
def pyLower (s : String) : String := String.mk (s.data.map Char.toLower)

/-- Python `str.strip()`: drop leading and trailing whitespace.  (Python
also strips a few exotic code points such as `\x0b`/`\x0c` that
`Char.isWhitespace` keeps; the strings involved here are plain ASCII.) -/
def pyStrip (s : String) : String :=
  String.mk (((s.data.dropWhile Char.isWhitespace).reverse.dropWhile Char.isWhitespace).reverse)

/-- `str.replace("\n", " ")`: a single-character pattern, so a
character-wise map. -/
def replaceNewlineChars (s : String) : String :=
  String.mk (s.data.map (fun c => if c = Char.ofNat 10 then ' ' else c))

/-- The lowered catalog name used as the dictionary key in
`_resolve_item_name` (`item["name"].lower()`; the names are ASCII, so
`String.toLower` is Python `str.lower`). -/
def lowername (item : CatalogItem) : String := pyLower item.name

/-- The `name_lookup` dict comprehension of `_resolve_item_name`,
as an association list in insertion order:
`{item["name"].lower(): (idx, item) for idx, item in enumerate(items)}`. -/
def name_lookup (items : List CatalogItem) : List (String × (Nat × CatalogItem)) :=
  items.enum.map (fun p => (lowername p.2, p))

/-- Python dict lookup on an insertion-ordered association list: the
value of the LAST binding of the key (later bindings override). -/
def dictGet {α : Type} (l : List (String × α)) (k : String) : Option α :=
  (l.reverse.find? (fun p => p.1 == k)).map (fun p => p.2)

/-- Python `dict.keys()` order on an insertion-ordered association
list: first occurrence of each key. -/
def dedupFirst : Nat → List String → List String
  | 0, _ => []
  | _, [] => []
  | fuel + 1, k :: ks => k :: dedupFirst fuel (ks.filter (fun x => x != k))

/-- Python first-occurrence key deduplication (`dedupFirst` is called
with fuel `l.length`, which each step strictly consumes, so the
cut-off case is unreachable). -/
def dictKeys {α : Type} (l : List (String × α)) : List String :=
  dedupFirst l.length (l.map (fun p => p.1))

/-- A single-quote character, written via its code point so the Python
messages containing quotes can be reproduced verbatim. -/
def squote : String := String.mk [Char.ofNat 39]

/-- `ShopScene._resolve_item_name` (`src/scenes/shop_scene.py` lines
212-224): lower-case and strip the raw name; empty → unresolved; exact
dictionary hit first; otherwise `get_close_matches(lowered, keys, n=1,
cutoff=0.6)` and, when it proposes a key, that key's entry.  (Python
`str.strip()` also removes a few exotic whitespace code points that
`String.trim` keeps; the catalog and the inputs considered here are
plain ASCII.) -/
def resolve_item_name (items : List CatalogItem) (raw_name : String) :
    Option (Nat × CatalogItem) :=
  let lowered := pyStrip (pyLower raw_name)
  if lowered.isEmpty then none
  else
    match dictGet (name_lookup items) lowered with
    | some v => some v
    | none =>
      match get_close_matches1 lowered (dictKeys (name_lookup items)) with
      | some m => dictGet (name_lookup items) m
      | none => none

/-- `ShopScene.attempt_voice_purchase` (`src/scenes/shop_scene.py`
lines 195-210): reject a missing/blank raw name, then resolve it and
run `_attempt_purchase` on the resolved catalog entry.  The UI
`feedback` assignment is not part of the verified state. -/
def attempt_voice_purchase (items : List CatalogItem) (st : GameState)
    (raw_item_name : Option String) : Except String PurchaseOutcome × GameState :=
  match raw_item_name with
  | none => (Except.ok ⟨false, none, "I did not catch which item you want.", none⟩, st)
  | some raw =>
    if raw.isEmpty || (pyStrip raw).isEmpty then
      (Except.ok ⟨false, none, "I did not catch which item you want.", none⟩, st)
    else
      match resolve_item_name items raw with
      | none =>
        (Except.ok ⟨false, none, "I do not have " ++ squote ++ raw ++ squote ++ " in stock.", none⟩, st)
      | some (_, item) => attempt_purchase st item

/-!
Model of the conversation orchestrator (`src/voice/assistant.py`), the
background pipeline and the per-frame channel controller
(`src/merchant_dialogue.py`).  The external OpenAI-backed services
(classification, reply generation, transcription, synthesis) are
abstracted as oracle arguments whose value is either a result, a raised
`RecordingError`, or another raised exception — exactly the three cases
`VoiceChannel._capture_and_process` distinguishes at its `try` boundary.
-/

/-- One message of a session's history: `HumanMessage` / `AIMessage`
appended by the graph nodes of `MerchantVoiceAssistant`. -/
inductive Turn where
  | human (text : String)
  | assistant (text : String)
deriving Repr, DecidableEq

/-- The outcome of a call into Python code that may raise:
`ok`, a raised `RecordingError` (`src/voice/recorder.py`), or any other
raised exception (carrying `str(exc)`). -/
inductive PyResult (α : Type) where
  | ok (val : α)
  | recordingError (msg : String)
  | exn (msg : String)
deriving Repr, DecidableEq

/-- The fields of `IntentPrediction` that the control flow reads
(`confidence` and `rationale` are logged only). -/
structure IntentPrediction where
  intent : String
  item : Option String
deriving Repr, DecidableEq

/-- `MerchantVoiceAssistant._route_intent`: anything other than
`"trade"`/`"smalltalk"` routes to `"unknown"`. -/
def route_intent (intent : String) : String :=
  if intent = "trade" ∨ intent = "smalltalk" then intent else "unknown"

/-- `state["candidate_item"] = prediction.item.strip() if prediction.item
else None` in `_classify_intent` (Python truthiness: `None` and `""`
give `None`). -/
def candidate_of : Option String → Option String
  | none => none
  | some s => if s.isEmpty then none else some (pyStrip s)

/-- `AssistantResult` (`src/voice/assistant.py`), minus the redundant
`raw_state` snapshot. -/
structure AssistantResult where
  intent : String
  text : String
  candidate_item : Option String
  trade_result : Option PurchaseOutcome
deriving Repr, DecidableEq

/-- The main-loop body of `VoiceChannel._process_purchase_requests` for
one queued request (`src/merchant_dialogue.py` lines 266-273):
`scene.attempt_voice_purchase(item_name)`, with any raised exception
converted into a failure outcome `"Trade failed: ..."` (the partially
mutated state, if any, persists).  Through the bridge, this value is
exactly what the blocked `_purchase_handler` returns to the worker. -/
def process_purchase_request (items : List CatalogItem) (st : GameState)
    (item_name : Option String) : PurchaseOutcome × GameState :=
  match attempt_voice_purchase items st item_name with
  | (Except.ok o, st') => (o, st')
  | (Except.error e, st') => (⟨false, item_name, "Trade failed: " ++ e, none⟩, st')

/-- The thread key under which `MerchantVoiceAssistant.process` stores a
session in its checkpointer:
`f"{self._thread_namespace}:{thread_id}"`. -/
def session_key (ns tid : String) : String := ns ++ ":" ++ tid

/-- Pointwise update of the per-thread history store. -/
def supd (f : String → List Turn) (k : String) (v : List Turn) : String → List Turn :=
  fun x => if x = k then v else f x

/-- `MerchantVoiceAssistant.process` running the LangGraph graph
(`add_user → classify → route → respond_* → END`) for one utterance:

* empty (stripped) input raises `ValueError`;
* `_add_user_message` appends the stripped utterance to the thread's
  history (committed by the checkpointer when the node finishes, so it
  survives later node failures);
* `_classify_intent` calls the classification service (oracle
  `classifyR`); a raised failure aborts the whole utterance;
* routing on the validated intent; `respond_trade` FIRST performs the
  purchase through the transaction bridge (which never raises — the
  drain converts resolver exceptions into failure outcomes) and only
  THEN calls the generation service (oracle `respondR`): a generation
  failure is raised AFTER the state mutation, and the trade outcome is
  lost with the aborted graph run;
* the reply, when produced, is appended as an assistant turn, and the
  result carries `{intent, response_text, candidate_item, trade_result}`.

Returns (result-or-raise, updated history store, updated game state). -/
def assistant_process (items : List CatalogItem) (sessions : String → List Turn)
    (key : String) (st : GameState) (classifyR : PyResult IntentPrediction)
    (respondR : PyResult String) (user_input : String) :
    PyResult AssistantResult × (String → List Turn) × GameState :=
  if (pyStrip user_input).isEmpty then
    (PyResult.exn "user_input must not be empty", sessions, st)
  else
    let msgs1 := sessions key ++ [Turn.human (pyStrip user_input)]
    let sessions1 := supd sessions key msgs1
    match classifyR with
    | PyResult.recordingError e => (PyResult.recordingError e, sessions1, st)
    | PyResult.exn e => (PyResult.exn e, sessions1, st)
    | PyResult.ok pred =>
      let candidate := candidate_of pred.item
      if route_intent pred.intent = "trade" then
        match process_purchase_request items st candidate with
        | (outcome, st') =>
          match respondR with
          | PyResult.recordingError e => (PyResult.recordingError e, sessions1, st')
          | PyResult.exn e => (PyResult.exn e, sessions1, st')
          | PyResult.ok text =>
            (PyResult.ok ⟨pred.intent, text, candidate, some outcome⟩,
             supd sessions key (msgs1 ++ [Turn.assistant text]), st')
      else
        match respondR with
        | PyResult.recordingError e => (PyResult.recordingError e, sessions1, st)
        | PyResult.exn e => (PyResult.exn e, sessions1, st)
        | PyResult.ok text =>
          (PyResult.ok ⟨pred.intent, text, candidate, none⟩,
           supd sessions key (msgs1 ++ [Turn.assistant text]), st)

/-- Modelled from the spec: `MerchantVoiceAssistant.reset_conversation`
delegates to `self._checkpointer.delete(self._thread_namespace,
thread_id)` on the external langgraph `MemorySaver`, whose code is not
part of this repository.  Per the spec
("`resetConversation(sessionId)` must discard only that session's Turn
sequence, leaving others untouched"), deletion clears exactly the
addressed thread's stored history. -/
def reset_conversation (sessions : String → List Turn) (ns tid : String) :
    String → List Turn :=
  fun k => if k = session_key ns tid then [] else sessions k

/-- `VoiceTaskResult` (`src/merchant_dialogue.py` lines 50-58). -/
structure VoiceTaskResult where
  transcript : Option String
  assistant : Option AssistantResult
  audio_path : Option String
  error : Option String
deriving Repr, DecidableEq

/-- `VoiceChannel._capture_and_process` (`src/merchant_dialogue.py`
lines 197-242), the whole background unit of work.  Oracles:
`recordR` for `engine.record_and_transcribe`, `classifyR`/`respondR`
for the orchestrator's service calls, `synthR` for `engine.synthesize`.
The single `try` block means ANY raised failure — including a reply
generation failure after a trade already executed, or a synthesis
failure after a reply was produced — yields a result carrying ONLY the
`error` field: `str(exc)` for `RecordingError`, otherwise
`"Voice interaction failed: ..."`. -/
def capture_and_process (items : List CatalogItem) (sessions : String → List Turn)
    (key : String) (st : GameState) (recordR : PyResult String)
    (classifyR : PyResult IntentPrediction) (respondR : PyResult String)
    (synthR : PyResult String) :
    VoiceTaskResult × (String → List Turn) × GameState :=
  match recordR with
  | PyResult.recordingError e => (⟨none, none, none, some e⟩, sessions, st)
  | PyResult.exn e => (⟨none, none, none, some ("Voice interaction failed: " ++ e)⟩, sessions, st)
  | PyResult.ok transcript =>
    if (pyStrip transcript).isEmpty then
      (⟨none, none, none, some "I could not hear you."⟩, sessions, st)
    else
      match assistant_process items sessions key st classifyR respondR transcript with
      | (PyResult.recordingError e, s', st') => (⟨none, none, none, some e⟩, s', st')
      | (PyResult.exn e, s', st') =>
        (⟨none, none, none, some ("Voice interaction failed: " ++ e)⟩, s', st')
      | (PyResult.ok ar, s', st') =>
        if ar.text.isEmpty then (⟨some (pyStrip transcript), some ar, none, none⟩, s', st')
        else
          match synthR with
          | PyResult.ok path => (⟨some (pyStrip transcript), some ar, some path, none⟩, s', st')
          | PyResult.recordingError e => (⟨none, none, none, some e⟩, s', st')
          | PyResult.exn e =>
            (⟨none, none, none, some ("Voice interaction failed: " ++ e)⟩, s', st')

/-- A `concurrent.futures.Future[VoiceTaskResult]` as the controller
sees it: an identity, whether `done()` is true, and — once done — either
the returned value or the exception that `result()` would re-raise. -/
structure FutureModel where
  id : Nat
  done : Bool
  result : Except String VoiceTaskResult
deriving Repr

/-- The observable state of `VoiceChannel` (`src/merchant_dialogue.py`):
service readiness (`_engine`/`_assistant` being non-`None`), the
`idle`/`recording`/`error` state string, status text, error message,
scrollback log and the single-flight background task slot. -/
structure ChannelModel where
  engine_ready : Bool
  assistant_ready : Bool
  state : String
  status_text : String
  error_message : Option String
  log : List (String × String)
  current_future : Option FutureModel
deriving Repr

/-- `VoiceChannel._append_log`: skip `None`, collapse newlines, strip,
skip blank lines, append to the deque with `maxlen=MAX_LOG_LINES=10`
(oldest entries fall off the left). -/
def append_log (log : List (String × String)) (speaker : String)
    (message : Option String) : List (String × String) :=
  match message with
  | none => log
  | some m =>
    let clean := pyStrip (replaceNewlineChars m)
    if clean.isEmpty then log
    else
      let l := log ++ [(speaker, clean)]
      l.drop (l.length - 10)

/-- `VoiceChannel._start_listening` (`src/merchant_dialogue.py` lines
181-195).  Returns the updated channel and whether a new task was
submitted to the executor; the three early returns (task still running,
error state, services not ready) submit nothing and change nothing. -/
def start_listening (ch : ChannelModel) (new_future : FutureModel) :
    ChannelModel × Bool :=
  if (ch.current_future.map (fun f => !f.done)).getD false then (ch, false)
  else if ch.state = "error" then (ch, false)
  else if !ch.engine_ready || !ch.assistant_ready then (ch, false)
  else ({ ch with
            state := "recording"
            status_text := "Listening..."
            error_message := none
            current_future := some new_future }, true)

/-- `VoiceChannel._handle_task_result` (`src/merchant_dialogue.py`
lines 295-335): an error-carrying result goes to `idle` with the error
logged as "System"; otherwise `idle` with the transcript logged as
"You" and a non-empty reply as "Mira".  (Audio playback via
`_play_audio` touches no observable controller state modelled here.) -/
def handle_task_result (ch : ChannelModel) (result : VoiceTaskResult) : ChannelModel :=
  match result.error with
  | some e =>
    { ch with
        state := "idle"
        status_text := "Press Space to talk"
        error_message := some e
        log := append_log ch.log "System" (some e) }
  | none =>
    let log1 := append_log ch.log "You" result.transcript
    let log2 :=
      match result.assistant with
      | none => log1
      | some ar => append_log log1 "Mira" (if ar.text.isEmpty then none else some ar.text)
    { ch with state := "idle", status_text := "Press Space to talk", log := log2 }

/-- `VoiceChannel._poll_future` (`src/merchant_dialogue.py` lines
277-293): nothing to do without a future or while it is running; a
future whose `result()` raises sends the channel to `error`; a returned
`VoiceTaskResult` is handled by `_handle_task_result`; in both cases the
slot is cleared. -/
def poll_future (ch : ChannelModel) : ChannelModel :=
  match ch.current_future with
  | none => ch
  | some f =>
    if !f.done then ch
    else
      match f.result with
      | Except.error e =>
        { ch with
            state := "error"
            status_text := "Voice error"
            error_message := some e
            current_future := none }
      | Except.ok r => { handle_task_result ch r with current_future := none }

/-- One queued entry of `VoiceChannel._purchase_requests`: the raw item
name, the `threading.Event` (as its set flag) and the one-slot result
container. -/
structure PendingRequest where
  item_name : Option String
  event_set : Bool
  outcome : Option PurchaseOutcome
deriving Repr, DecidableEq

/-- `VoiceChannel._process_purchase_requests` (`src/merchant_dialogue.py`
lines 260-275): drain the queue until empty, resolving each request on
the main loop (exceptions converted to `"Trade failed: ..."` outcomes),
storing the outcome in its container and setting its event.  Returns
the processed requests (the queue itself ends empty) and the final
game state. -/
def process_purchase_requests (items : List CatalogItem) (st : GameState) :
    List PendingRequest → List PendingRequest × GameState
  | [] => ([], st)
  | r :: rs =>
    let p := process_purchase_request items st r.item_name
    let rest := process_purchase_requests items p.2 rs
    ({ r with outcome := some p.1, event_set := true } :: rest.1, rest.2)

/-!
Protocol model for the transaction bridge occupancy (claim C2).  The
code enforces: at most one background task exists at a time
(`max_workers=1` plus the `_start_listening` single-flight guard on a
not-yet-done future); one task calls `MerchantVoiceAssistant.process`
exactly once, whose graph runs `respond_trade` — the only caller of
`_purchase_handler` — at most once; `_purchase_handler` enqueues one
request and blocks on its event until the per-frame drain has consumed
it.  The following labelled transition system is that protocol;
`queued` is `len(VoiceChannel._purchase_requests)`.
-/

/-- Where the single background task is in its life cycle, as far as
bridge traffic is concerned. -/
inductive TaskPhase where
  /-- running, has not (yet) submitted a purchase request -/
  | beforeSubmit
  /-- blocked inside `_purchase_handler` on `event.wait()` -/
  | waiting
  /-- woken by the drain, finishing the pipeline -/
  | afterSubmit
  /-- callable returned; the future is done but not yet collected -/
  | finished
deriving Repr, DecidableEq

/-- Joint state of the task slot and the bridge queue length. -/
structure BridgeSys where
  task : Option TaskPhase
  queued : Nat
deriving Repr, DecidableEq

/-- Effect of `event.set()` on the (unique) blocked worker. -/
def wake : Option TaskPhase → Option TaskPhase
  | some TaskPhase.waiting => some TaskPhase.afterSubmit
  | t => t

/-- The transitions of the bridge protocol.
`start` is `_start_listening` submitting `_capture_and_process` (only
with no running task: slot empty or holding an uncollected done
future); `submit` is `_purchase_handler` enqueueing and blocking;
`drain` is one iteration of the per-frame
`_process_purchase_requests` loop (dequeue, resolve, `event.set()`);
`finishNoTrade`/`finishTrade` are the callable returning (no second
submit can follow: `process` is called once and runs `respond_trade` at
most once); `collect` is `_poll_future` clearing the slot of a done
future. -/
inductive BridgeStep : BridgeSys → BridgeSys → Prop where
  | start (s : BridgeSys) :
      s.task = none ∨ s.task = some TaskPhase.finished →
      BridgeStep s ⟨some TaskPhase.beforeSubmit, s.queued⟩
  | submit (s : BridgeSys) :
      s.task = some TaskPhase.beforeSubmit →
      BridgeStep s ⟨some TaskPhase.waiting, s.queued + 1⟩
  | drain (s : BridgeSys) :
      0 < s.queued →
      BridgeStep s ⟨wake s.task, s.queued - 1⟩
  | finishNoTrade (s : BridgeSys) :
      s.task = some TaskPhase.beforeSubmit →
      BridgeStep s ⟨some TaskPhase.finished, s.queued⟩
  | finishTrade (s : BridgeSys) :
      s.task = some TaskPhase.afterSubmit →
      BridgeStep s ⟨some TaskPhase.finished, s.queued⟩
  | collect (s : BridgeSys) :
      s.task = some TaskPhase.finished →
      BridgeStep s ⟨none, s.queued⟩

/-- Initial state: no task, empty bridge (fresh `VoiceChannel`). -/
def bridgeInit : BridgeSys := ⟨none, 0⟩

/-- The states the channel/bridge system can actually be in. -/
def BridgeReachable (s : BridgeSys) : Prop :=
  Relation.ReflTransGen BridgeStep bridgeInit s

/-!
Theorems for the specification claims.
-/

/-- A demo game state: `gold` as given, empty inventory, nothing
equipped, and the initial merchant stock ledger `{"Heal Potion": 3}`
from `main.py`. -/
def mkState (g : Nat) : GameState :=
  ⟨g, fun _ => 0, fun _ => 0, fun _ => 0, none, none,
   fun k => if k = "Heal Potion" then 3 else 0⟩

/-- C7: while a background voice task is outstanding (submitted and not
yet done), triggering `_start_listening` again is a no-op: the channel —
state, status text, log, error message and the identity of the
outstanding future — is unchanged and no new task is submitted. -/
theorem C7_start_single_flight (ch : ChannelModel) (f new_future : FutureModel)
    (houtstanding : ch.current_future = some f) (hrunning : f.done = false) :
    start_listening ch new_future = (ch, false) := by
  unfold start_listening
  rw [houtstanding]
  simp [hrunning]

/-- Witness for C7 at a concrete recording channel. -/
theorem C7_start_single_flight_witness :
    start_listening
      ⟨true, true, "recording", "Listening...", none, [],
        some ⟨1, false, Except.ok ⟨none, none, none, none⟩⟩⟩
      ⟨2, false, Except.ok ⟨none, none, none, none⟩⟩ =
    (⟨true, true, "recording", "Listening...", none, [],
        some ⟨1, false, Except.ok ⟨none, none, none, none⟩⟩⟩, false) :=
  C7_start_single_flight _ _ _ rfl rfl

/-- Distinct session ids give distinct checkpointer thread keys. -/
theorem session_key_inj {ns a b : String} (h : session_key ns a = session_key ns b) :
    a = b := by
  have hd := congrArg String.data h
  simp only [session_key, String.data_append] at hd
  exact String.ext (List.append_cancel_left hd)

/-- C8: resetting session `a` clears exactly `a`'s turn sequence; every
other session — in particular any `b ≠ a` — keeps its history. -/
theorem C8_reset_isolation (sessions : String → List Turn) (ns a b : String)
    (hab : a ≠ b) :
    reset_conversation sessions ns a (session_key ns a) = [] ∧
    reset_conversation sessions ns a (session_key ns b) = sessions (session_key ns b) ∧
    (∀ k, k ≠ session_key ns a → reset_conversation sessions ns a k = sessions k) := by
  refine ⟨by simp [reset_conversation], ?_, fun k hk => by simp [reset_conversation, hk]⟩
  have hne : session_key ns b ≠ session_key ns a := fun h => hab (session_key_inj h).symm
  simp [reset_conversation, hne]

/-- Witness for C8 on a concrete two-session store. -/
theorem C8_reset_isolation_witness :
    reset_conversation
        (fun k => if k = session_key "merchant" "shop:alice" then [Turn.human "hi"]
                  else if k = session_key "merchant" "shop:bob" then [Turn.human "yo"]
                  else [])
        "merchant" "shop:alice" (session_key "merchant" "shop:alice") = [] ∧
    reset_conversation
        (fun k => if k = session_key "merchant" "shop:alice" then [Turn.human "hi"]
                  else if k = session_key "merchant" "shop:bob" then [Turn.human "yo"]
                  else [])
        "merchant" "shop:alice" (session_key "merchant" "shop:bob") = [Turn.human "yo"] := by
  have h := C8_reset_isolation
    (fun k => if k = session_key "merchant" "shop:alice" then [Turn.human "hi"]
              else if k = session_key "merchant" "shop:bob" then [Turn.human "yo"]
              else [])
    "merchant" "shop:alice" "shop:bob" (by decide)
  exact ⟨h.1, h.2.1.trans (by decide)⟩

/-- C9 counterexample: in the `recording` state, a background task that
completes WITH AN ERROR (the normal failure path: the pipeline catches
every fault and returns a `VoiceTaskResult` whose `error` field is set)
drives the controller to `idle`, not to `error` — `_handle_task_result`
sets `self._state = "idle"` on the error branch. -/
theorem C9_counterexample :
    poll_future
        ⟨true, true, "recording", "Listening...", none, [],
          some ⟨0, true, Except.ok ⟨none, none, none, some "I could not hear you."⟩⟩⟩ =
      ⟨true, true, "idle", "Press Space to talk", some "I could not hear you.",
        [("System", "I could not hear you.")], none⟩ ∧
    ("idle" : String) ≠ "error" :=
  ⟨rfl, by decide⟩

/-- C9 amended: when the future itself RAISES (an unhandled fault, the
defensive `except` branch of `_poll_future`), the controller goes
`recording → error`; when the task completes with an error RESULT (the
normal failure path), it goes `recording → idle` with the error message
surfaced. -/
theorem C9_amended_poll_transitions (ch : ChannelModel) (f : FutureModel)
    (e m : String) (r : VoiceTaskResult)
    (_hrec : ch.state = "recording") (hf : ch.current_future = some f)
    (hdone : f.done = true) :
    (f.result = Except.error e →
      (poll_future ch).state = "error" ∧ (poll_future ch).error_message = some e) ∧
    (f.result = Except.ok r → r.error = some m →
      (poll_future ch).state = "idle" ∧ (poll_future ch).error_message = some m) := by
  constructor
  · intro hres
    unfold poll_future
    rw [hf]
    simp [hdone, hres]
  · intro hres herr
    unfold poll_future
    rw [hf]
    simp [hdone, hres, handle_task_result, herr]

/-- Witness for C9 (amended) on a concrete raising future. -/
theorem C9_amended_poll_transitions_witness :
    (poll_future
        ⟨true, true, "recording", "Listening...", none, [],
          some ⟨0, true, Except.error "boom"⟩⟩).state = "error" ∧
    (poll_future
        ⟨true, true, "recording", "Listening...", none, [],
          some ⟨0, true, Except.error "boom"⟩⟩).error_message = some "boom" :=
  (C9_amended_poll_transitions
      ⟨true, true, "recording", "Listening...", none, [],
        some ⟨0, true, Except.error "boom"⟩⟩
      ⟨0, true, Except.error "boom"⟩ "boom" "unused" ⟨none, none, none, none⟩
      rfl rfl rfl).1 rfl

/-- C5 counterexample: a run that transcribed "hello there", produced
the non-empty reply "Hello, traveler!" and then failed synthesis
returns an error-only task result: transcript and reply text are
discarded, not preserved. -/
theorem C5_counterexample :
    (capture_and_process shopItems (fun _ => []) "merchant:shop:alice" (mkState 25)
        (PyResult.ok "hello there") (PyResult.ok ⟨"smalltalk", none⟩)
        (PyResult.ok "Hello, traveler!") (PyResult.exn "tts down")).1 =
      ⟨none, none, none, some "Voice interaction failed: tts down"⟩ :=
  rfl

/-- C5 amended: for every pipeline run that produced a non-empty reply
text, a raised synthesis failure is caught by the task's single `try`
boundary and DISCARDS the transcript and the reply text: the task
result carries only the error string, and audio playback is skipped. -/
theorem C5_amended_synth_discards (items : List CatalogItem)
    (sessions : String → List Turn) (key : String) (st : GameState)
    (transcript e : String) (classifyR : PyResult IntentPrediction)
    (respondR : PyResult String) (ar : AssistantResult)
    (s' : String → List Turn) (st' : GameState)
    (htr : (pyStrip transcript).isEmpty = false)
    (hproc : assistant_process items sessions key st classifyR respondR transcript =
      (PyResult.ok ar, s', st'))
    (htext : ar.text.isEmpty = false) :
    capture_and_process items sessions key st (PyResult.ok transcript) classifyR respondR
        (PyResult.exn e) =
      (⟨none, none, none, some ("Voice interaction failed: " ++ e)⟩, s', st') := by
  simp only [capture_and_process, htr, hproc, htext, Bool.false_eq_true, if_false]

/-- Witness for C5 (amended) on a concrete smalltalk run. -/
theorem C5_amended_synth_discards_witness :
    (capture_and_process shopItems (fun _ => []) "merchant:shop:alice" (mkState 25)
        (PyResult.ok "hello there") (PyResult.ok ⟨"smalltalk", none⟩)
        (PyResult.ok "Hi!") (PyResult.exn "tts down")).1 =
      ⟨none, none, none, some ("Voice interaction failed: " ++ "tts down")⟩ :=
  congrArg Prod.fst
    (C5_amended_synth_discards shopItems (fun _ => []) "merchant:shop:alice" (mkState 25)
      "hello there" "tts down" (PyResult.ok ⟨"smalltalk", none⟩) (PyResult.ok "Hi!")
      ⟨"smalltalk", "Hi!", none, none⟩
      (supd (fun _ => []) "merchant:shop:alice"
        [Turn.human "hello there", Turn.assistant "Hi!"])
      (mkState 25) rfl rfl rfl)

/-- C4 counterexample: a trade utterance whose purchase executed (gold
25 → 5 through the bridge) but whose reply generation raised returns an
error-only task result: the caller receives NO `PurchaseOutcome` — the
state mutation happened but is not reported. -/
theorem C4_counterexample :
    (capture_and_process shopItems (fun _ => []) "merchant:shop:alice" (mkState 25)
        (PyResult.ok "a heal potion please") (PyResult.ok ⟨"trade", some "heal potion"⟩)
        (PyResult.exn "llm down") (PyResult.ok "reply.mp3")).1 =
      ⟨none, none, none, some "Voice interaction failed: llm down"⟩ ∧
    (capture_and_process shopItems (fun _ => []) "merchant:shop:alice" (mkState 25)
        (PyResult.ok "a heal potion please") (PyResult.ok ⟨"trade", some "heal potion"⟩)
        (PyResult.exn "llm down") (PyResult.ok "reply.mp3")).2.2.gold = 5 ∧
    (mkState 25).gold = 25 :=
  ⟨rfl, rfl, rfl⟩

/-- C4 amended: when a trade has executed through the bridge and the
subsequent reply-generation call raises, the caller receives only an
error-string task result — the `PurchaseOutcome` is NOT reported (it is
dropped with the aborted graph run), while the game-state mutation
persists silently. -/
theorem C4_amended_trade_outcome_dropped (items : List CatalogItem)
    (sessions : String → List Turn) (key : String) (st : GameState)
    (transcript e : String) (pred : IntentPrediction)
    (synthR : PyResult String)
    (htr : (pyStrip transcript).isEmpty = false)
    (hintent : route_intent pred.intent = "trade") :
    capture_and_process items sessions key st (PyResult.ok transcript)
        (PyResult.ok pred) (PyResult.exn e) synthR =
      (⟨none, none, none, some ("Voice interaction failed: " ++ e)⟩,
       supd sessions key (sessions key ++ [Turn.human (pyStrip transcript)]),
       (process_purchase_request items st (candidate_of pred.item)).2) := by
  simp only [capture_and_process, assistant_process, htr, hintent, if_true,
    Bool.false_eq_true, if_false]

/-- Witness for C4 (amended): the concrete trade run of the
counterexample, where the purchase mutates gold 25 → 5 and the result
reports only the error. -/
theorem C4_amended_trade_outcome_dropped_witness :
    capture_and_process shopItems (fun _ => []) "merchant:shop:alice" (mkState 25)
        (PyResult.ok "a heal potion please")
        (PyResult.ok ⟨"trade", some "heal potion"⟩) (PyResult.exn "llm down")
        (PyResult.ok "reply.mp3") =
      (⟨none, none, none, some ("Voice interaction failed: " ++ "llm down")⟩,
       supd (fun _ => []) "merchant:shop:alice"
         ((fun _ => ([] : List Turn)) "merchant:shop:alice" ++
           [Turn.human (pyStrip "a heal potion please")]),
       (process_purchase_request shopItems (mkState 25)
         (candidate_of (some "heal potion"))).2) :=
  C4_amended_trade_outcome_dropped shopItems (fun _ => []) "merchant:shop:alice"
    (mkState 25) "a heal potion please" "llm down" ⟨"trade", some "heal potion"⟩
    (PyResult.ok "reply.mp3") rfl rfl

/-- C10: one call of the per-frame drain consumes every queued request
(the output has one processed entry per queued entry and the queue ends
empty), stores an outcome in each request's result slot and sets its
completion event; a resolver exception is converted into a
`"Trade failed: ..."` failure outcome instead of propagating, so the
blocked worker is always woken. -/
theorem C10_drain_always_signals (items : List CatalogItem) (st : GameState)
    (rs : List PendingRequest) :
    ((process_purchase_requests items st rs).1.length = rs.length) ∧
    (∀ r ∈ (process_purchase_requests items st rs).1,
        r.event_set = true ∧ r.outcome.isSome = true) ∧
    (∀ (name : Option String) (e : String) (st1 : GameState),
        attempt_voice_purchase items st name = (Except.error e, st1) →
        process_purchase_request items st name =
          (⟨false, name, "Trade failed: " ++ e, none⟩, st1)) := by
  refine ⟨?_, ?_, ?_⟩
  · induction rs generalizing st with
    | nil => rfl
    | cons r rs ih => simp [process_purchase_requests, ih]
  · induction rs generalizing st with
    | nil => intro r h; cases h
    | cons r rs ih =>
      intro r' h
      simp only [process_purchase_requests, List.mem_cons] at h
      rcases h with h | h
      · subst h; exact ⟨rfl, rfl⟩
      · exact ih _ _ h
  · intro name e st1 hav
    unfold process_purchase_request
    rw [hav]

/-- Witness for C10: a queued request for an item whose inventory add
raises (`"Excalibur"` is no known weapon) is still answered, with the
exception converted to a `"Trade failed: ..."` outcome; gold stays
debited (50 → 40) exactly as in the Python code. -/
theorem C10_drain_always_signals_witness :
    process_purchase_requests [⟨"Excalibur", "weapon", 10, "spr", none, ""⟩]
        (mkState 50) [⟨some "Excalibur", false, none⟩] =
      ([⟨some "Excalibur", true,
          some ⟨false, some "Excalibur", "Trade failed: " ++ "Unknown weapon: Excalibur", none⟩⟩],
        { mkState 50 with gold := 40 }) ∧
    process_purchase_request [⟨"Excalibur", "weapon", 10, "spr", none, ""⟩]
        (mkState 50) (some "Excalibur") =
      (⟨false, some "Excalibur", "Trade failed: " ++ "Unknown weapon: Excalibur", none⟩,
        { mkState 50 with gold := 40 }) :=
  ⟨rfl,
   (C10_drain_always_signals [⟨"Excalibur", "weapon", 10, "spr", none, ""⟩]
      (mkState 50) []).2.2 (some "Excalibur") "Unknown weapon: Excalibur"
      { mkState 50 with gold := 40 } rfl⟩

/-- The inductive invariant behind C2: the bridge never holds more than
one request, and when it holds one the unique task is blocked on it. -/
def bridgeInv (s : BridgeSys) : Prop :=
  s.queued ≤ 1 ∧ (s.queued = 1 → s.task = some TaskPhase.waiting)

/-- `bridgeInv` is preserved by every protocol step. -/
theorem bridgeInv_step {s t : BridgeSys} (h : BridgeStep s t) (hs : bridgeInv s) :
    bridgeInv t := by
  obtain ⟨hle, hone⟩ := hs
  cases h with
  | start h' =>
    refine ⟨hle, fun hq => absurd (hone hq) ?_⟩
    rcases h' with h' | h' <;> simp [h']
  | submit h' =>
    have hz : s.queued = 0 := by
      by_contra hnz
      have hw := hone (by omega)
      rw [h'] at hw
      simp at hw
    refine ⟨?_, fun _ => rfl⟩
    show s.queued + 1 ≤ 1
    omega
  | drain h' =>
    refine ⟨?_, fun hq => ?_⟩
    · show s.queued - 1 ≤ 1
      omega
    · exfalso
      have hq1 : s.queued - 1 = 1 := hq
      omega
  | finishNoTrade h' =>
    refine ⟨hle, fun hq => ?_⟩
    have hw := hone hq
    rw [h'] at hw
    simp at hw
  | finishTrade h' =>
    refine ⟨hle, fun hq => ?_⟩
    have hw := hone hq
    rw [h'] at hw
    simp at hw
  | collect h' =>
    refine ⟨hle, fun hq => ?_⟩
    have hw := hone hq
    rw [h'] at hw
    simp at hw

/-- C2: in every reachable state of the channel/bridge protocol, the
transaction bridge holds at most one pending purchase request — the
single-slot discipline is enforced upstream by the single-flight task
slot and the orchestrator's single synchronous purchase call per
utterance. -/
theorem C2_bridge_single_slot (s : BridgeSys) (h : BridgeReachable s) :
    s.queued ≤ 1 := by
  have hinv : bridgeInv s := by
    induction h with
    | refl => exact ⟨by simp [bridgeInit], by simp [bridgeInit]⟩
    | tail _ hstep ih => exact bridgeInv_step hstep ih
  exact hinv.1

/-- Witness for C2: the state reached by start-then-submit (a worker
blocked on its purchase request) indeed has at most one queued
request. -/
theorem C2_bridge_single_slot_witness :
    (⟨some TaskPhase.waiting, 1⟩ : BridgeSys).queued ≤ 1 :=
  C2_bridge_single_slot ⟨some TaskPhase.waiting, 1⟩
    (Relation.ReflTransGen.tail
      (Relation.ReflTransGen.single (BridgeStep.start bridgeInit (Or.inl rfl)))
      (BridgeStep.submit ⟨some TaskPhase.beforeSubmit, 0⟩ rfl))

/-- `spend_gold` succeeds exactly when the balance suffices. -/
theorem spend_gold_fst (g a : Nat) : (spend_gold g a).1 = decide (a ≤ g) := by
  unfold spend_gold
  split_ifs with h <;> simp [h]

/-- The balance left by `spend_gold`. -/
theorem spend_gold_snd (g a : Nat) : (spend_gold g a).2 = if a ≤ g then g - a else g := by
  unfold spend_gold
  split_ifs <;> rfl

/-- Case analysis of `_attempt_purchase` for an item whose name is a
known key of its category dict (true of every entry of `shopItems`, so
the inventory-add exceptions are unreachable): the resolver always
returns an outcome, and either it succeeds — having debited exactly the
price, granted exactly one unit, and decremented the stock ledger when
the item has a (truthy) stock key, never touching any other ledger
entry — or it fails and the state is returned COMPLETELY unchanged. -/
theorem attempt_purchase_cases (st : GameState) (item : CatalogItem)
    (hknown : (item.type = "weapon" → item.name ∈ weaponNames) ∧
              (item.type = "shield" → item.name ∈ shieldNames) ∧
              (item.type ≠ "weapon" → item.type ≠ "shield" → item.name ∈ potionNames)) :
    ∃ o st', attempt_purchase st item = (Except.ok o, st') ∧
      ((o.success = true ∧ o.price_paid = some item.price ∧
        st'.gold + item.price = st.gold ∧
        holdings st' item = holdings st item + 1 ∧
        (∀ k, st'.stock k ≤ st.stock k) ∧
        (truthy item.stock_key = true →
          st'.stock (item.stock_key.getD "") + 1 = st.stock (item.stock_key.getD "")) ∧
        (truthy item.stock_key = false → ∀ k, st'.stock k = st.stock k)) ∨
       (o.success = false ∧ st' = st)) := by
  obtain ⟨hw, hs, hp⟩ := hknown
  by_cases hoos : truthy item.stock_key = true ∧ st.stock (item.stock_key.getD "") = 0
  · exact ⟨⟨false, some item.name, item.name ++ " is out of stock!", none⟩, st,
      by simp only [attempt_purchase, if_pos hoos], Or.inr ⟨rfl, rfl⟩⟩
  by_cases hgold : item.price ≤ st.gold
  case neg =>
    refine ⟨⟨false, some item.name,
      "Not enough gold for " ++ toString item.price ++ "g.", none⟩, st, ?_,
      Or.inr ⟨rfl, rfl⟩⟩
    simp only [attempt_purchase, if_neg hoos, spend_gold_fst, hgold]
    simp
  have hrpos : truthy item.stock_key = true → st.stock (item.stock_key.getD "") ≠ 0 := by
    intro hkt h0
    exact hoos ⟨hkt, h0⟩
  by_cases hkey : truthy item.stock_key = true
  · by_cases htw : item.type = "weapon"
    · by_cases heq : st.equipped_weapon = none

      · refine ⟨⟨true, some item.name,
          "Bought " ++ item.name ++ " for " ++ toString item.price ++ "g.",
          some item.price⟩,
          { st with
              gold := st.gold - item.price
              weapons := fupd st.weapons item.name (st.weapons item.name + 1)
              equipped_weapon := some item.name
              stock := fupd st.stock (item.stock_key.getD "")
                (max 0 (st.stock (item.stock_key.getD "") - 1)) }, ?_, Or.inl ?_⟩
        · simp [attempt_purchase, hoos, spend_gold_fst, spend_gold_snd, hgold,
            htw, hw htw, heq, hkey, fupd, hrpos hkey]
        · refine ⟨rfl, rfl, Nat.sub_add_cancel hgold, ?_, ?_, ?_, ?_⟩
          · simp [holdings, htw, fupd]
          · intro k
            by_cases hk : k = item.stock_key.getD "" <;> simp [fupd, hk]
          · intro _
            have hr := hrpos hkey
            simp [fupd]
            omega
          · intro hfalse
            simp [hfalse] at hkey

      · refine ⟨⟨true, some item.name,
          "Bought " ++ item.name ++ " for " ++ toString item.price ++ "g.",
          some item.price⟩,
          { st with
              gold := st.gold - item.price
              weapons := fupd st.weapons item.name (st.weapons item.name + 1)
              stock := fupd st.stock (item.stock_key.getD "")
                (max 0 (st.stock (item.stock_key.getD "") - 1)) }, ?_, Or.inl ?_⟩
        · simp [attempt_purchase, hoos, spend_gold_fst, spend_gold_snd, hgold,
            htw, hw htw, heq, hkey, fupd, hrpos hkey]
        · refine ⟨rfl, rfl, Nat.sub_add_cancel hgold, ?_, ?_, ?_, ?_⟩
          · simp [holdings, htw, fupd]
          · intro k
            by_cases hk : k = item.stock_key.getD "" <;> simp [fupd, hk]
          · intro _
            have hr := hrpos hkey
            simp [fupd]
            omega
          · intro hfalse
            simp [hfalse] at hkey
    by_cases hts : item.type = "shield"
    · by_cases heq : st.equipped_shield = none

      · refine ⟨⟨true, some item.name,
          "Bought " ++ item.name ++ " for " ++ toString item.price ++ "g.",
          some item.price⟩,
          { st with
              gold := st.gold - item.price
              shields := fupd st.shields item.name (st.shields item.name + 1)
              equipped_shield := some item.name
              stock := fupd st.stock (item.stock_key.getD "")
                (max 0 (st.stock (item.stock_key.getD "") - 1)) }, ?_, Or.inl ?_⟩
        · simp [attempt_purchase, hoos, spend_gold_fst, spend_gold_snd, hgold,
            htw, hts, hs hts, heq, hkey, fupd, hrpos hkey]
        · refine ⟨rfl, rfl, Nat.sub_add_cancel hgold, ?_, ?_, ?_, ?_⟩
          · simp [holdings, htw, hts, fupd]
          · intro k
            by_cases hk : k = item.stock_key.getD "" <;> simp [fupd, hk]
          · intro _
            have hr := hrpos hkey
            simp [fupd]
            omega
          · intro hfalse
            simp [hfalse] at hkey

      · refine ⟨⟨true, some item.name,
          "Bought " ++ item.name ++ " for " ++ toString item.price ++ "g.",
          some item.price⟩,
          { st with
              gold := st.gold - item.price
              shields := fupd st.shields item.name (st.shields item.name + 1)
              stock := fupd st.stock (item.stock_key.getD "")
                (max 0 (st.stock (item.stock_key.getD "") - 1)) }, ?_, Or.inl ?_⟩
        · simp [attempt_purchase, hoos, spend_gold_fst, spend_gold_snd, hgold,
            htw, hts, hs hts, heq, hkey, fupd, hrpos hkey]
        · refine ⟨rfl, rfl, Nat.sub_add_cancel hgold, ?_, ?_, ?_, ?_⟩
          · simp [holdings, htw, hts, fupd]
          · intro k
            by_cases hk : k = item.stock_key.getD "" <;> simp [fupd, hk]
          · intro _
            have hr := hrpos hkey
            simp [fupd]
            omega
          · intro hfalse
            simp [hfalse] at hkey

    · refine ⟨⟨true, some item.name,
        "Bought " ++ item.name ++ " for " ++ toString item.price ++ "g.",
        some item.price⟩,
        { st with
            gold := st.gold - item.price
            potions := fupd st.potions item.name (st.potions item.name + 1)
            stock := fupd st.stock (item.stock_key.getD "")
              (max 0 (st.stock (item.stock_key.getD "") - 1)) }, ?_, Or.inl ?_⟩
      · simp [attempt_purchase, hoos, spend_gold_fst, spend_gold_snd, hgold,
          htw, hts, hp htw hts, hkey, fupd, hrpos hkey]
      · refine ⟨rfl, rfl, Nat.sub_add_cancel hgold, ?_, ?_, ?_, ?_⟩
        · simp [holdings, htw, hts, fupd]
        · intro k
          by_cases hk : k = item.stock_key.getD "" <;> simp [fupd, hk]
        · intro _
          have hr := hrpos hkey
          simp [fupd]
          omega
        · intro hfalse
          simp [hfalse] at hkey
  · by_cases htw : item.type = "weapon"
    · by_cases heq : st.equipped_weapon = none

      · refine ⟨⟨true, some item.name,
          "Bought " ++ item.name ++ " for " ++ toString item.price ++ "g.",
          some item.price⟩,
          { st with
              gold := st.gold - item.price
              weapons := fupd st.weapons item.name (st.weapons item.name + 1)
              equipped_weapon := some item.name }, ?_, Or.inl ?_⟩
        · simp [attempt_purchase, spend_gold_fst, spend_gold_snd, hgold,
            htw, hw htw, heq, hkey, fupd]
        · refine ⟨rfl, rfl, Nat.sub_add_cancel hgold, ?_, fun k => le_refl _,
            fun h => absurd h hkey, fun _ k => rfl⟩
          simp [holdings, htw, fupd]

      · refine ⟨⟨true, some item.name,
          "Bought " ++ item.name ++ " for " ++ toString item.price ++ "g.",
          some item.price⟩,
          { st with
              gold := st.gold - item.price
              weapons := fupd st.weapons item.name (st.weapons item.name + 1) }, ?_, Or.inl ?_⟩
        · simp [attempt_purchase, spend_gold_fst, spend_gold_snd, hgold,
            htw, hw htw, heq, hkey, fupd]
        · refine ⟨rfl, rfl, Nat.sub_add_cancel hgold, ?_, fun k => le_refl _,
            fun h => absurd h hkey, fun _ k => rfl⟩
          simp [holdings, htw, fupd]
    by_cases hts : item.type = "shield"
    · by_cases heq : st.equipped_shield = none

      · refine ⟨⟨true, some item.name,
          "Bought " ++ item.name ++ " for " ++ toString item.price ++ "g.",
          some item.price⟩,
          { st with
              gold := st.gold - item.price
              shields := fupd st.shields item.name (st.shields item.name + 1)
              equipped_shield := some item.name }, ?_, Or.inl ?_⟩
        · simp [attempt_purchase, spend_gold_fst, spend_gold_snd, hgold,
            htw, hts, hs hts, heq, hkey, fupd]
        · refine ⟨rfl, rfl, Nat.sub_add_cancel hgold, ?_, fun k => le_refl _,
            fun h => absurd h hkey, fun _ k => rfl⟩
          simp [holdings, htw, hts, fupd]

      · refine ⟨⟨true, some item.name,
          "Bought " ++ item.name ++ " for " ++ toString item.price ++ "g.",
          some item.price⟩,
          { st with
              gold := st.gold - item.price
              shields := fupd st.shields item.name (st.shields item.name + 1) }, ?_, Or.inl ?_⟩
        · simp [attempt_purchase, spend_gold_fst, spend_gold_snd, hgold,
            htw, hts, hs hts, heq, hkey, fupd]
        · refine ⟨rfl, rfl, Nat.sub_add_cancel hgold, ?_, fun k => le_refl _,
            fun h => absurd h hkey, fun _ k => rfl⟩
          simp [holdings, htw, hts, fupd]

    · refine ⟨⟨true, some item.name,
        "Bought " ++ item.name ++ " for " ++ toString item.price ++ "g.",
        some item.price⟩,
        { st with
            gold := st.gold - item.price
            potions := fupd st.potions item.name (st.potions item.name + 1) }, ?_, Or.inl ?_⟩
      · simp [attempt_purchase, spend_gold_fst, spend_gold_snd, hgold,
          htw, hts, hp htw hts, hkey, fupd]
      · refine ⟨rfl, rfl, Nat.sub_add_cancel hgold, ?_, fun k => le_refl _,
          fun h => absurd h hkey, fun _ k => rfl⟩
        simp [holdings, htw, hts, fupd]

/-- C1: every resolver call on a catalog item is atomic — it either
succeeds with the gold debited by exactly the price, the holdings of
that item grown by exactly one and the stock ledger decremented when
finite, or fails leaving gold, holdings and stock (the whole state)
unchanged; and concretely, with "Heal Potion" priced 20 gold, stock 3
and 25 gold, resolving "heal potion" succeeds with price paid 20,
stock 2 and gold 5. -/
theorem C1_purchase_atomicity :
    (∀ (item : CatalogItem), item ∈ shopItems → ∀ st : GameState,
      ∃ o st', attempt_purchase st item = (Except.ok o, st') ∧
        ((o.success = true ∧ o.price_paid = some item.price ∧
          st'.gold + item.price = st.gold ∧
          holdings st' item = holdings st item + 1 ∧
          (∀ k, st'.stock k ≤ st.stock k) ∧
          (truthy item.stock_key = true →
            st'.stock (item.stock_key.getD "") + 1 = st.stock (item.stock_key.getD "")) ∧
          (truthy item.stock_key = false → ∀ k, st'.stock k = st.stock k)) ∨
         (o.success = false ∧ st' = st))) ∧
    (attempt_voice_purchase shopItems (mkState 25) (some "heal potion")).1 =
      Except.ok ⟨true, some "Heal Potion", "Bought Heal Potion for 20g.", some 20⟩ ∧
    (attempt_voice_purchase shopItems (mkState 25) (some "heal potion")).2.gold = 5 ∧
    (attempt_voice_purchase shopItems (mkState 25) (some "heal potion")).2.stock
      "Heal Potion" = 2 ∧
    (mkState 25).stock "Heal Potion" = 3 := by
  refine ⟨?_, rfl, rfl, rfl, rfl⟩
  intro item hitem st
  refine attempt_purchase_cases st item ?_
  fin_cases hitem <;> decide

/-- Witness for C1's quantified part at the Heal Potion and the
scenario state. -/
theorem C1_purchase_atomicity_witness :
    ∃ o st',
      attempt_purchase (mkState 25)
          ⟨"Heal Potion", "potion", 20, "heal_potion", some "Heal Potion",
            "Restores 40 HP"⟩ = (Except.ok o, st') ∧
      ((o.success = true ∧
        o.price_paid = some (CatalogItem.price ⟨"Heal Potion", "potion", 20,
          "heal_potion", some "Heal Potion", "Restores 40 HP"⟩) ∧
        st'.gold + 20 = (mkState 25).gold ∧
        holdings st' ⟨"Heal Potion", "potion", 20, "heal_potion", some "Heal Potion",
          "Restores 40 HP"⟩ =
          holdings (mkState 25) ⟨"Heal Potion", "potion", 20, "heal_potion",
            some "Heal Potion", "Restores 40 HP"⟩ + 1 ∧
        (∀ k, st'.stock k ≤ (mkState 25).stock k) ∧
        (truthy (some "Heal Potion") = true →
          st'.stock "Heal Potion" + 1 = (mkState 25).stock "Heal Potion") ∧
        (truthy (some "Heal Potion") = false → ∀ k, st'.stock k = (mkState 25).stock k)) ∨
       (o.success = false ∧ st' = mkState 25)) :=
  C1_purchase_atomicity.1
    ⟨"Heal Potion", "potion", 20, "heal_potion", some "Heal Potion", "Restores 40 HP"⟩
    (by decide) (mkState 25)

/-- C6: once a finite-stock item's ledger is 0, every voice resolution
attempt that resolves to that item fails with the "out of stock"
outcome and returns the state COMPLETELY unchanged (gold included);
moreover no resolver call on any catalog item ever increases any stock
ledger entry, so an exhausted ledger stays exhausted. -/
theorem C6_stock_exhaustion (st : GameState) (raw : String) (i : Nat)
    (item : CatalogItem) (k : String)
    (hguard : (raw.isEmpty || (pyStrip raw).isEmpty) = false)
    (hres : resolve_item_name shopItems raw = some (i, item))
    (hkt : truthy item.stock_key = true) (hk : item.stock_key = some k)
    (h0 : st.stock k = 0) :
    attempt_voice_purchase shopItems st (some raw) =
      (Except.ok ⟨false, some item.name, item.name ++ " is out of stock!", none⟩, st) ∧
    (∀ (st2 : GameState) (item2 : CatalogItem), item2 ∈ shopItems →
      ∀ k2, (attempt_purchase st2 item2).2.stock k2 ≤ st2.stock k2) := by
  constructor
  · have hkt' : truthy (some k) = true := by rw [← hk]; exact hkt
    have hoos : truthy item.stock_key = true ∧ st.stock (item.stock_key.getD "") = 0 := by
      rw [hk]
      exact ⟨hkt', h0⟩
    simp only [attempt_voice_purchase, hguard, Bool.false_eq_true, if_false, hres,
      attempt_purchase, if_pos hoos]
  · intro st2 item2 hmem k2
    have hknown : (item2.type = "weapon" → item2.name ∈ weaponNames) ∧
        (item2.type = "shield" → item2.name ∈ shieldNames) ∧
        (item2.type ≠ "weapon" → item2.type ≠ "shield" → item2.name ∈ potionNames) := by
      fin_cases hmem <;> decide
    obtain ⟨o, st', heq, hcases⟩ := attempt_purchase_cases st2 item2 hknown
    rw [heq]
    rcases hcases with ⟨_, _, _, _, hle, _, _⟩ | ⟨_, hunch⟩
    · exact hle k2
    · rw [hunch]

/-- Witness for C6: with the Heal Potion ledger at 0 and 25 gold,
resolving "heal potion" fails out-of-stock and changes nothing. -/
theorem C6_stock_exhaustion_witness :
    attempt_voice_purchase shopItems
        ⟨25, fun _ => 0, fun _ => 0, fun _ => 0, none, none, fun _ => 0⟩
        (some "heal potion") =
      (Except.ok ⟨false, some "Heal Potion", "Heal Potion is out of stock!", none⟩,
        ⟨25, fun _ => 0, fun _ => 0, fun _ => 0, none, none, fun _ => 0⟩) :=
  (C6_stock_exhaustion
    ⟨25, fun _ => 0, fun _ => 0, fun _ => 0, none, none, fun _ => 0⟩
    "heal potion" 4
    ⟨"Heal Potion", "potion", 20, "heal_potion", some "Heal Potion", "Restores 40 HP"⟩
    "Heal Potion" rfl (by decide) rfl rfl rfl).1

/-- Every entry of the `name_lookup` dict pairs a lowered catalog name
with its enumerated item, whose lowered name is that key. -/
theorem name_lookup_key {items : List CatalogItem} {pr : String × (Nat × CatalogItem)}
    (h : pr ∈ name_lookup items) :
    pr.1 = lowername pr.2.2 ∧ pr.1 ∈ items.map lowername := by
  rcases List.mem_map.mp h with ⟨q, hq, rfl⟩
  refine ⟨rfl, ?_⟩
  have hq2 : q.2 ∈ items := by
    have : q.2 ∈ items.enum.map Prod.snd := List.mem_map_of_mem Prod.snd hq
    rwa [List.enum_map_snd] at this
  exact List.mem_map_of_mem lowername hq2

/-- Looking a present key up in the `name_lookup` dict yields an entry
carrying an item with exactly that lowered name. -/
theorem dictGet_name_lookup_mem {items : List CatalogItem} {key : String}
    (hkey : key ∈ items.map lowername) :
    ∃ i it, dictGet (name_lookup items) key = some (i, it) ∧ lowername it = key := by
  rcases List.mem_map.mp hkey with ⟨it, hit, hlow⟩
  have hit' : it ∈ items.enum.map Prod.snd := by rwa [List.enum_map_snd]
  rcases List.mem_map.mp hit' with ⟨q, hq, hq2⟩
  have hpr : (lowername q.2, q) ∈ (name_lookup items).reverse :=
    List.mem_reverse.mpr (List.mem_map_of_mem _ hq)
  have hsome : ((name_lookup items).reverse.find? (fun p => p.1 == key)).isSome := by
    refine List.find?_isSome.mpr ⟨(lowername q.2, q), hpr, ?_⟩
    simp [hq2, hlow]
  rcases Option.isSome_iff_exists.mp hsome with ⟨pr, hfind⟩
  have hpr1 : pr.1 = key := by
    have := List.find?_some hfind
    simpa [beq_iff_eq] using this
  have hmem : pr ∈ name_lookup items :=
    List.mem_reverse.mp (List.mem_of_find?_eq_some hfind)
  have hkeyed := (name_lookup_key hmem).1
  refine ⟨pr.2.1, pr.2.2, ?_, by rw [← hkeyed, hpr1]⟩
  simp [dictGet, hfind]

/-- Looking an absent key up in the `name_lookup` dict yields nothing. -/
theorem dictGet_name_lookup_none {items : List CatalogItem} {key : String}
    (hkey : key ∉ items.map lowername) :
    dictGet (name_lookup items) key = none := by
  have hfind : (name_lookup items).reverse.find? (fun p => p.1 == key) = none := by
    refine List.find?_eq_none.mpr ?_
    intro pr hpr hbeq
    have h1 := (name_lookup_key (List.mem_reverse.mp hpr)).2
    rw [show pr.1 = key from by simpa [beq_iff_eq] using hbeq] at h1
    exact hkey h1
  simp [dictGet, hfind]

/-- With enough fuel, first-occurrence deduplication of a duplicate-free
list is the identity. -/
theorem dedupFirst_nodup (fuel : Nat) (l : List String)
    (hnd : l.Nodup) (hlen : l.length ≤ fuel) : dedupFirst fuel l = l := by
  induction l generalizing fuel with
  | nil => cases fuel <;> rfl
  | cons k ks ih =>
    cases fuel with
    | zero => simp at hlen
    | succ m =>
      have hk : k ∉ ks := (List.nodup_cons.mp hnd).1
      have hfilter : ks.filter (fun x => x != k) = ks := by
        refine List.filter_eq_self.mpr ?_
        intro x hx
        simp only [bne_iff_ne, ne_eq, decide_eq_true_eq]
        exact fun hxk => hk (hxk ▸ hx)
      show k :: dedupFirst m (ks.filter (fun x => x != k)) = k :: ks
      rw [hfilter, ih m (List.nodup_cons.mp hnd).2 (by simpa using hlen)]

/-- The keys of the `name_lookup` dict, when the lowered catalog names
are duplicate-free, are exactly those names in catalog order. -/
theorem dictKeys_name_lookup {items : List CatalogItem}
    (hnd : (items.map lowername).Nodup) :
    dictKeys (name_lookup items) = items.map lowername := by
  have hmap : (name_lookup items).map (fun p => p.1) = items.map lowername := by
    show (items.enum.map (fun p => (lowername p.2, p))).map (fun p => p.1) =
      items.map lowername
    rw [List.map_map]
    rw [show ((fun (p : String × (Nat × CatalogItem)) => p.1) ∘
        fun (p : Nat × CatalogItem) => (lowername p.2, p)) = lowername ∘ Prod.snd from rfl]
    rw [← List.map_map, List.enum_map_snd]
  rw [dictKeys, hmap]
  refine dedupFirst_nodup _ _ hnd ?_
  simp [name_lookup]

/-- A candidate list in which exactly one name clears the cutoff
filters down to that single candidate. -/
theorem filterMap_cutoff_singleton {p : String → Bool} {l : List String} {k : String}
    (hmem : k ∈ l) (hnd : l.Nodup)
    (huniq : ∀ x ∈ l, (p x = true ↔ x = k)) :
    l.filterMap (fun x => if p x then some x else none) = [k] := by
  induction l with
  | nil => cases hmem
  | cons a l ih =>
    obtain ⟨hal, hndl⟩ := List.nodup_cons.mp hnd
    by_cases hak : a = k
    · subst hak
      have hpa : p a = true := (huniq a (List.mem_cons_self a l)).mpr rfl
      have hrest : l.filterMap (fun x => if p x then some x else none) = [] := by
        refine List.filterMap_eq_nil_iff.mpr ?_
        intro x hx
        have hne : x ≠ a := fun h => hal (h ▸ hx)
        have hnp : ¬ p x = true := fun hpx =>
          hne ((huniq x (List.mem_cons_of_mem a hx)).mp hpx)
        simp [hnp]
      simp [List.filterMap_cons, hpa, hrest]
    · have hpa : ¬ p a = true := fun h =>
        hak ((huniq a (List.mem_cons_self a l)).mp h)
      have hkl : k ∈ l := by
        rcases List.mem_cons.mp hmem with h | h
        · exact absurd h.symm hak
        · exact h
      simp only [List.filterMap_cons, if_neg hpa]
      exact ih hkl hndl (fun x hx => huniq x (List.mem_cons_of_mem a hx))

/-- `get_close_matches(word, keys, n=1, cutoff=0.6)` returns the unique
cutoff-clearing candidate when there is exactly one. -/
theorem get_close_matches1_unique {word : String} {keys : List String} {k : String}
    (hmem : k ∈ keys) (hnd : keys.Nodup)
    (huniq : ∀ x ∈ keys, (clearsCutoff word x = true ↔ x = k)) :
    get_close_matches1 word keys = some k := by
  unfold get_close_matches1
  rw [filterMap_cutoff_singleton hmem hnd huniq]
  rfl

/-- `get_close_matches(word, keys, n=1, cutoff=0.6)` returns nothing
when no candidate clears the cutoff. -/
theorem get_close_matches1_empty {word : String} {keys : List String}
    (hall : ∀ x ∈ keys, clearsCutoff word x = false) :
    get_close_matches1 word keys = none := by
  unfold get_close_matches1
  rw [List.filterMap_eq_nil_iff.mpr (fun x hx => by simp [hall x hx])]
  rfl

/-- C3 amended: exact case-insensitive match takes precedence; among
catalog names that clear the similarity cutoff, a UNIQUE clearing name
resolves to its item; when NO name clears the cutoff the name is
unresolved and the voice purchase fails with the "not in stock" outcome
and no state change.  (Equally-close ties are NOT treated as
unresolved — see the counterexample: the best scorer under the
`(ratio, name)` order is picked, favouring the lexicographically
greater name.) -/
theorem C3_amended_fuzzy_resolution (items : List CatalogItem) (raw : String)
    (st : GameState) (k : String)
    (hnd : (items.map lowername).Nodup)
    (hne : (pyStrip (pyLower raw)).isEmpty = false) :
    (pyStrip (pyLower raw) ∈ items.map lowername →
      ∃ i it, resolve_item_name items raw = some (i, it) ∧
        lowername it = pyStrip (pyLower raw)) ∧
    (pyStrip (pyLower raw) ∉ items.map lowername →
      k ∈ items.map lowername →
      (∀ x ∈ items.map lowername,
        (clearsCutoff (pyStrip (pyLower raw)) x = true ↔ x = k)) →
      ∃ i it, resolve_item_name items raw = some (i, it) ∧ lowername it = k) ∧
    (pyStrip (pyLower raw) ∉ items.map lowername →
      (∀ x ∈ items.map lowername, clearsCutoff (pyStrip (pyLower raw)) x = false) →
      resolve_item_name items raw = none ∧
      ((raw.isEmpty || (pyStrip raw).isEmpty) = false →
        attempt_voice_purchase items st (some raw) =
          (Except.ok ⟨false, none,
            "I do not have " ++ squote ++ raw ++ squote ++ " in stock.", none⟩, st))) := by
  refine ⟨?_, ?_, ?_⟩
  · intro hmem
    obtain ⟨i, it, hget, hlow⟩ := dictGet_name_lookup_mem hmem
    refine ⟨i, it, ?_, hlow⟩
    simp only [resolve_item_name, hne, Bool.false_eq_true, if_false, hget]
  · intro hnx hkmem huniq
    obtain ⟨i, it, hget, hlow⟩ := dictGet_name_lookup_mem hkmem
    refine ⟨i, it, ?_, hlow⟩
    simp only [resolve_item_name, hne, Bool.false_eq_true, if_false,
      dictGet_name_lookup_none hnx, dictKeys_name_lookup hnd,
      get_close_matches1_unique hkmem hnd huniq, hget]
  · intro hnx hall
    have hres : resolve_item_name items raw = none := by
      simp only [resolve_item_name, hne, Bool.false_eq_true, if_false,
        dictGet_name_lookup_none hnx, dictKeys_name_lookup hnd,
        get_close_matches1_empty hall]
    refine ⟨hres, fun hguard => ?_⟩
    simp only [attempt_voice_purchase, hguard, Bool.false_eq_true, if_false, hres]

/-- C3 counterexample: "sword" clears the 0.6 cutoff for BOTH
"short sword" and "steel sword" with exactly equal similarity ratios
(5 matched characters over 16 total for each), yet resolution does NOT
treat the name as unresolved: `get_close_matches(..., n=1)` breaks the
tie towards the greater key, `resolve("Sword")` returns the Steel Sword
and a voice purchase with 200 gold succeeds, mutating gold 200 → 80 —
not the claimed "not in stock" failure with no state change. -/
theorem C3_counterexample :
    clearsCutoff "sword" "short sword" = true ∧
    clearsCutoff "sword" "steel sword" = true ∧
    totalMatches "short sword".data "sword".data *
        ("steel sword".length + "sword".length) =
      totalMatches "steel sword".data "sword".data *
        ("short sword".length + "sword".length) ∧
    ("short sword" : String) ≠ "steel sword" ∧
    resolve_item_name shopItems "Sword" =
      some (1, ⟨"Steel Sword", "weapon", 120, "steel_sword", none, "+12 ATK"⟩) ∧
    (attempt_voice_purchase shopItems (mkState 200) (some "Sword")).1 =
      Except.ok ⟨true, some "Steel Sword", "Bought Steel Sword for 120g.", some 120⟩ ∧
    (attempt_voice_purchase shopItems (mkState 200) (some "Sword")).2.gold = 80 := by
  refine ⟨rfl, rfl, rfl, by decide, by decide, rfl, rfl⟩

/-- Witness for C3 (amended): "heal poshun" clears the cutoff for
exactly one catalog name and resolves to the Heal Potion. -/
theorem C3_amended_fuzzy_resolution_witness :
    ∃ i it, resolve_item_name shopItems "heal poshun" = some (i, it) ∧
      lowername it = "heal potion" :=
  (C3_amended_fuzzy_resolution shopItems "heal poshun" (mkState 25) "heal potion"
    (by decide) rfl).2.1 (by decide) (by decide) (by decide)
